/-
Verification of the Advent-of-Code bootstrapper (src/main.py) against its
natural-language specification (spec.md).

The Python program is shallowly embedded: pure helpers become Lean
functions over `List Char` / `String`; filesystem and process effects are
made explicit (a filesystem record, lists of emitted commands, writes and
messages); functions that may call `sys.exit(1)` return `Except` with the
error messages, while functions documented to never exit return plain
values.  Strings of the source (status constants, diagnostic messages,
template contents) are reproduced verbatim.
-/
import Mathlib

namespace AocInit

/-! ## Character/string primitives mirroring the Python ones used -/

/-- The whitespace class used by Python `str.strip()` and `re`'s `\s`
(ASCII range; the source only ever handles ASCII-ish page text). -/
def pyWS (c : Char) : Bool :=
  c = ' ' || c = '\t' || c = '\n' || c = '\r' || c = '\x0b' || c = '\x0c'

/-- `str.lstrip()` on a list of characters. -/
def lstripL (l : List Char) : List Char := l.dropWhile pyWS

/-- `str.rstrip()` on a list of characters. -/
def rstripL (l : List Char) : List Char := (lstripL l.reverse).reverse

/-- Python `str.strip()` (no arguments): remove whitespace at both ends. -/
def stripL (l : List Char) : List Char := rstripL (lstripL l)

/-- Python `needle in haystack` membership on character lists:
`subOccurs n h` is true when `n` occurs contiguously inside `h`. -/
def startsWithL : List Char → List Char → Bool
  | [], _ => true
  | _ :: _, [] => false
  | a :: n, b :: h => a = b && startsWithL n h

def subOccurs (needle : List Char) : List Char → Bool
  | [] => startsWithL needle []
  | c :: rest => startsWithL needle (c :: rest) || subOccurs needle rest

/-- Python `needle in haystack` on strings. -/
def strContains (hay needle : String) : Bool := subOccurs needle.data hay.data

/-! ## `load_dotenv` (src/main.py lines 51-79)

A `.env` line is stripped; empty lines, lines starting with `#`, and lines
without `=` are skipped; otherwise the line is split at the first `=`,
key and value are stripped, and surrounding quotes (single or double)
are removed from the value.  Entries go into a dict, so a repeated key
keeps the value of the last occurrence. -/

/-- Surrounding-quote removal: `value[1:-1]` when the stripped value both
starts and ends with `'` or both starts and ends with `"`. -/
def stripQuotes (v : List Char) : List Char :=
  if (v.head? = some '\'' && v.getLast? = some '\'') ||
     (v.head? = some '"' && v.getLast? = some '"') then
    (v.drop 1).dropLast
  else v

/-- One iteration of the `for line in f` loop body: `none` when the line is
skipped, otherwise the key/value pair stored into the dict. -/
def parse_env_line (line : List Char) : Option (List Char × List Char) :=
  let l := stripL line
  if l = [] || l.head? = some '#' || !l.contains '=' then none
  else
    let key := stripL (l.takeWhile (fun c => c ≠ '='))
    let value := stripQuotes (stripL ((l.dropWhile (fun c => c ≠ '=')).tail))
    some (key, value)

/-- `env_vars[key] = value` on an insertion-ordered association list,
mirroring Python dict assignment (replaces in place, else appends). -/
def dictInsert (m : List (List Char × List Char)) (k v : List Char) :
    List (List Char × List Char) :=
  match m with
  | [] => [(k, v)]
  | (k', v') :: rest =>
      if k' = k then (k, v) :: rest else (k', v') :: dictInsert rest k v

/-- Python `dict.get`. -/
def dictGet (m : List (List Char × List Char)) (k : List Char) :
    Option (List Char) :=
  match m with
  | [] => none
  | (k', v') :: rest => if k' = k then some v' else dictGet rest k

/-- `load_dotenv`: fold the per-line parser over the file's lines.
(The `OSError` branch returns the empty dict with a warning; file-read
success is assumed here since the claims are about parsing.) -/
def load_dotenv (lines : List (List Char)) : List (List Char × List Char) :=
  lines.foldl
    (fun m line =>
      match parse_env_line line with
      | none => m
      | some (k, v) => dictInsert m k v)
    []

/-! ## `create_day_folder` (src/main.py lines 85-102)

Paths are modelled as their segment lists (`pathlib.Path.parts`); the
filesystem's directory set is a list of such paths.  `mkdir(parents=True,
exist_ok=True)` makes every prefix of the target exist and raises nothing
when the directory is already there (the `OSError` branch, which exits,
models unrecoverable filesystem failure and is outside these claims). -/

abbrev SegPath := List String

/-- The target-path computation of `create_day_folder`: drop the year
segment when the base path already contains it. -/
def target_dir_of (year day_str_padded : String) (base_path : SegPath) : SegPath :=
  if year ∈ base_path then base_path ++ [day_str_padded]
  else base_path ++ [year, day_str_padded]

/-- All prefixes (initial segment lists) of a path, the directories that
`mkdir(parents=True)` ensures exist. -/
def initialSegs (p : SegPath) : List SegPath :=
  (List.range (p.length + 1)).map (fun n => p.take n)

/-- `target_dir.mkdir(parents=True, exist_ok=True)` on the directory set:
add the missing prefixes, keep everything already present. -/
def mkdirParents (dirs : List SegPath) (p : SegPath) : List SegPath :=
  dirs ++ (initialSegs p).filter (fun q => !dirs.contains q)

/-! ## `fetch_input` (src/main.py lines 105-154)

The HTTP client is an opaque collaborator: its outcome (a status/body
response, or a transport-level exception) is the model's input.
`response.raise_for_status()` raises exactly for statuses in [400, 600).
`fetch_input` exits the process on every failure, so it is embedded as
`Except`: `.error msgs` is `sys.exit(1)` after printing `msgs` to stderr,
`.ok files` is a normal return having written `files`.  Verbose-only
output is omitted (it adds detail without changing control flow). -/

structure HttpResponse where
  status : Nat
  body   : String

inductive HttpOutcome
  | resp (r : HttpResponse)
  | netError (msg : String)

def AOC_BASE_URL : String := "https://adventofcode.com"

def input_url (year day_str_unpadded : String) : String :=
  AOC_BASE_URL ++ "/" ++ year ++ "/day/" ++ day_str_unpadded ++ "/input"

def problem_url (year day_str_unpadded : String) : String :=
  AOC_BASE_URL ++ "/" ++ year ++ "/day/" ++ day_str_unpadded

/-- The substring of a 400 body that marks the puzzle as not yet unlocked. -/
def unlockSubstr : String :=
  "Please don\x27t repeatedly request this endpoint before it unlocks!"

def unlockDetail : String :=
  "Detail: It seems the puzzle for this day/year might not be unlocked yet."

def credDetail : String :=
  "Detail: Check if your AOC_SESSION cookie is valid or has expired."

def fetch_input (year day_str_unpadded : String) (out : HttpOutcome)
    (writeOk : Bool) : Except (List String) (List (String × String)) :=
  match out with
  | .netError m => .error ["Error: Failed to fetch puzzle input. " ++ m]
  | .resp r =>
      if 400 ≤ r.status ∧ r.status < 600 then
        let base := "Error: HTTP " ++ toString r.status ++
          " fetching puzzle input from " ++ input_url year day_str_unpadded ++ "."
        if r.status = 400 && strContains r.body unlockSubstr then
          .error [base, unlockDetail]
        else if r.status = 401 || r.status = 403 then
          .error [base, credDetail]
        else
          .error [base]
      else
        if writeOk then .ok [("input.txt", r.body), ("example.txt", "")]
        else .error ["Error: Could not write input/example file."]

/-! ## `fetch_and_save_instructions` (src/main.py lines 157-275)

The HTML parser is an opaque collaborator: on a 2xx response the model's
input carries the list of texts that `article.get_text(separator="\n",
strip=True)` yielded for the elements matching `article.day-desc` (empty
list: selector matched nothing).  Exceptions from fetching/parsing are the
`exn` case (the function's final `except Exception` handler).  The
function never exits, so it returns a plain pair: the status string and
the content of `problem_statement.txt` after the call (`old_content` is
what was read from a pre-existing file, `none` when absent/unreadable;
after a failed write the content is left as the model's prior value,
which no claim relies on). -/

inductive PageOutcome
  | ok (articles : List String)
  | httpError (status : Nat) (body : String)
  | netError (msg : String)
  | exn (msg : String)

/-- Index (within a whitespace run known to contain one) of its last
newline; used to mirror the greedy `re.sub(r"\n\s*\n", "\n\n", text)`. -/
def lastNLIdx : List Char → Nat
  | [] => 0
  | _ :: rest => if rest.contains '\n' then lastNLIdx rest + 1 else 0

/-- One left-to-right pass of `re.sub(r"\n\s*\n", "\n\n", text)`: at a
newline whose following whitespace run holds another newline, the greedy
`\s*` stretches to that run's last newline; the whole match becomes two
newlines and scanning resumes after it.  Structural recursion on a fuel
bounded by the list length (each step consumes at least one character). -/
def collapseGo : Nat → List Char → List Char
  | 0, l => l
  | _ + 1, [] => []
  | fuel + 1, c :: rest =>
      if c = '\n' then
        let w := rest.takeWhile pyWS
        if w.contains '\n' then
          '\n' :: '\n' :: collapseGo fuel (rest.drop (lastNLIdx w + 1))
        else c :: collapseGo fuel rest
      else c :: collapseGo fuel rest

def collapseBlank (l : List Char) : List Char := collapseGo l.length l

/-- `part_text = re.sub(r"\n\s*\n", "\n\n", part_text)` then
`part_text.strip()`. -/
def normalize_part (s : String) : String :=
  String.mk (stripL (collapseBlank s.data))

/-- `part_titles[i]` falling back to `--- Part {i+1} ---`. -/
def part_title (i : Nat) : String :=
  if i = 0 then "--- Part One ---"
  else if i = 1 then "--- Part Two ---"
  else "--- Part " ++ toString (i + 1) ++ " ---"

/-- `full_problem_text` construction followed by the final `.strip()`. -/
def build_problem_text (year day_str_unpadded : String)
    (articles : List String) : String :=
  let header :=
    "Problem Statement for Advent of Code " ++ year ++ " Day " ++
      day_str_unpadded ++ "\n" ++
    "Source: " ++ problem_url year day_str_unpadded ++ "\n" ++
    "Input File URL: " ++ input_url year day_str_unpadded ++ "\n\n"
  let parts := articles.enum.map
    (fun p => part_title p.1 ++ "\n" ++ normalize_part p.2 ++ "\n\n")
  String.mk (stripL (header ++ String.join parts).data)

def fetch_and_save_instructions (year day_str_unpadded : String)
    (old_content : Option String) (writeOk : Bool) (out : PageOutcome) :
    String × Option String :=
  match out with
  | .httpError _ _ => ("FAILED_FETCH", old_content)
  | .netError _ => ("FAILED_FETCH", old_content)
  | .exn _ => ("FAILED_UNEXPECTED", old_content)
  | .ok articles =>
      if articles = [] then ("NOT_FOUND", old_content)
      else
        let new_content := build_problem_text year day_str_unpadded articles
        if !writeOk then ("FAILED_WRITE", old_content)
        else
          match old_content with
          | none => ("CREATED", some new_content)
          | some old =>
              if old = new_content then ("UNCHANGED", some new_content)
              else ("UPDATED", some new_content)

/-- The six statuses the function's docstring (and the spec) enumerate. -/
def documentedStatuses : List String :=
  ["CREATED", "UPDATED", "UNCHANGED", "NOT_FOUND", "FAILED_FETCH",
   "FAILED_WRITE"]

/-! ## Scaffold generators (src/main.py lines 279-491)

Each scaffolder is embedded as a pure function producing the trace of its
observable actions: subprocess invocations attempted, directories it
itself creates, files it writes (the toolchain's own disk effects belong
to the opaque collaborator), and its printed messages (non-verbose).  The
toolchain outcome(s) are inputs.  No scaffolder exits the process. -/

structure FS where
  dirs  : List SegPath
  files : List (SegPath × String)

def pathExists (fs : FS) (p : SegPath) : Bool :=
  fs.dirs.contains p || (fs.files.map Prod.fst).contains p

inductive ToolOutcome
  | ok
  | exitNonZero (code : Int)
  | notFound
deriving DecidableEq

structure ScaffoldTrace where
  cmds    : List (List String)
  mkdirs  : List SegPath
  writes  : List (SegPath × String)
  msgs    : List String
  skipped : Bool

def renderPath (p : SegPath) : String := String.intercalate "/" p

/-- `str.replace` (all occurrences); fuel-structural like `collapseGo`. -/
def replaceGo : Nat → List Char → List Char → List Char → List Char
  | 0, _, _, l => l
  | _ + 1, _, _, [] => []
  | fuel + 1, pat, rep, c :: rest =>
      if pat ≠ [] && startsWithL pat (c :: rest) then
        rep ++ replaceGo fuel pat rep ((c :: rest).drop pat.length)
      else c :: replaceGo fuel pat rep rest

def pyReplace (s pat rep : String) : String :=
  String.mk (replaceGo s.data.length pat.data rep.data s.data)

def scaffold_rust_project (dst_path : SegPath) (year day_str_padded : String)
    (fs : FS) (cargo : ToolOutcome) (tomlContent : Option String) :
    ScaffoldTrace :=
  let rust_dir := dst_path ++ ["rust"]
  if pathExists fs rust_dir then
    { cmds := [], mkdirs := [], writes := []
      msgs := ["Rust project already exists at " ++ renderPath rust_dir ++
               ", skipping."]
      skipped := true }
  else
    let intro := "Scaffolding Rust project in " ++ renderPath rust_dir ++ "..."
    let cmds := [["cargo", "new", "rust", "--vcs", "none"]]
    match cargo with
    | .ok =>
        let writes :=
          match tomlContent with
          | some content =>
              let new_name :=
                "name = \"aoc_" ++ year ++ "_day_" ++ day_str_padded ++
                  "_rust\""
              [(rust_dir ++ ["Cargo.toml"],
                pyReplace content "name = \"rust\"" new_name)]
          | none => []
        { cmds := cmds, mkdirs := [], writes := writes
          msgs := [intro, "Rust project scaffolded."], skipped := false }
    | .exitNonZero code =>
        { cmds := cmds, mkdirs := [], writes := []
          msgs := [intro,
            "Error: Rust scaffolding failed. `cargo new rust --vcs none` exited with " ++
              toString code ++ "."]
          skipped := false }
    | .notFound =>
        { cmds := cmds, mkdirs := [], writes := []
          msgs := [intro,
            "Error: `cargo` command not found. Is Rust installed and in your PATH?"]
          skipped := false }

def main_go_content (year day_str_padded : String) : String :=
  "package main\n\nimport \"fmt\"\n\nfunc main() \x7b\n" ++
    "\tfmt.Println(\"Day " ++ day_str_padded ++ " — Advent of Code " ++
    year ++ "\")\n\x7d\n"

def scaffold_go_project (dst_path : SegPath) (year day_str_padded : String)
    (fs : FS) (goTool : ToolOutcome) : ScaffoldTrace :=
  let go_dir := dst_path ++ ["go"]
  if pathExists fs go_dir then
    { cmds := [], mkdirs := [], writes := []
      msgs := ["Go project already exists at " ++ renderPath go_dir ++
               ", skipping."]
      skipped := true }
  else
    let intro := "Scaffolding Go project in " ++ renderPath go_dir ++ "..."
    let module_name := "aoc_" ++ year ++ "_day_" ++ day_str_padded ++ "_go"
    let cmds := [["go", "mod", "init", module_name]]
    match goTool with
    | .ok =>
        { cmds := cmds, mkdirs := [go_dir]
          writes := [(go_dir ++ ["main.go"],
                      main_go_content year day_str_padded)]
          msgs := [intro, "Go project scaffolded."], skipped := false }
    | .exitNonZero code =>
        { cmds := cmds, mkdirs := [go_dir], writes := []
          msgs := [intro,
            "Error: Go scaffolding failed. `go mod init " ++ module_name ++
              "` exited with " ++ toString code ++ "."]
          skipped := false }
    | .notFound =>
        { cmds := cmds, mkdirs := [go_dir], writes := []
          msgs := [intro,
            "Error: `go` command not found. Is Go installed and in your PATH?"]
          skipped := false }

def main_py_content : String :=
  "def main():\n    print(\"Solve me!\")\n\n" ++
    "if __name__ == \"__main__\":\n    main()\n"

/-- `scaffold_python_project`: after creating `python/`, try `uv venv`
first; on `FileNotFoundError` (silently, non-verbose) or on a non-zero
exit (with a fallback notice) run `sys.executable -m venv .venv`; in
every case finish by writing the placeholder `main.py`. -/
def scaffold_python_project (dst_path : SegPath) (pyExe : String)
    (fs : FS) (uv : ToolOutcome) (stdVenv : ToolOutcome) : ScaffoldTrace :=
  let py_dir := dst_path ++ ["python"]
  if pathExists fs py_dir then
    { cmds := [], mkdirs := [], writes := []
      msgs := ["Python project already exists at " ++ renderPath py_dir ++
               ", skipping."]
      skipped := true }
  else
    let intro := "Scaffolding Python project in " ++ renderPath py_dir ++ "..."
    let uvCmd := ["uv", "venv"]
    let stdCmd := [pyExe, "-m", "venv", ".venv"]
    let afterUv :
        Bool × List (List String) × List String :=
      match uv with
      | .ok => (true, [uvCmd],
                ["Python venv created successfully with `uv`."])
      | .notFound => (false, [uvCmd], [])
      | .exitNonZero code =>
          (false, [uvCmd],
           ["Failed to create venv with `uv` (exited with " ++
              toString code ++
              "). Falling back to standard `venv` module."])
    let afterStd :
        Bool × List (List String) × List String :=
      if afterUv.1 then afterUv
      else
        match stdVenv with
        | .ok => (true, afterUv.2.1 ++ [stdCmd], afterUv.2.2 ++
                  ["Python venv created successfully with standard `venv` module."])
        | .exitNonZero code =>
            (false, afterUv.2.1 ++ [stdCmd], afterUv.2.2 ++
             ["Error: Python venv creation with standard library failed. `" ++
                pyExe ++ " -m venv .venv` exited with " ++ toString code ++ "."])
        | .notFound =>
            (false, afterUv.2.1 ++ [stdCmd], afterUv.2.2 ++
             ["Error: sys.executable not found (\x27" ++ pyExe ++
                "\x27). Cannot create standard venv."])
    let warn : List String :=
      if afterStd.1 then []
      else ["Warning: Failed to create Python virtual environment."]
    { cmds := afterStd.2.1, mkdirs := [py_dir]
      writes := [(py_dir ++ ["main.py"], main_py_content)]
      msgs := [intro] ++ afterStd.2.2 ++ warn ++ ["Python project scaffolded."]
      skipped := false }

/-! ## Argument validation (src/main.py lines 496-537)

`argparse` applies `type=` conversion (`int` failure modelled as `none`)
and then the `choices` check, rejecting the invocation before
`main_logic` runs.  `year_type` checks bounds against the current year. -/

def year_type (current_year : Int) (value : Option Int) : Except String Int :=
  match value with
  | none => .error "Invalid year format. Must be an integer."
  | some year =>
      if year < 2015 then
        .error ("Year must be 2015 or later. You provided: " ++ toString year)
      else if year > current_year + 1 then
        .error ("Year " ++ toString year ++
          " is too far in the future (current: " ++ toString current_year ++
          ").")
      else .ok year

/-- The day argument: `type=int` plus `choices=range(1, 26)`. -/
def day_accepted (value : Option Int) : Bool :=
  match value with
  | none => false
  | some d => 1 ≤ d && d ≤ 25

/-! ## Credential resolution and `main_logic` ordering
(src/main.py lines 586-633)

`session_cookie = args.session; if not session_cookie: session_cookie =
env_vars.get("AOC_SESSION"); if not session_cookie: exit(1)`.  Python
truthiness makes both `None` and `""` count as absent. -/

def truthyOpt : Option String → Bool
  | none => false
  | some s => !(s = "")

def resolve_session (cli envAOC : Option String) : Option String :=
  let s := if truthyOpt cli then cli else envAOC
  if truthyOpt s then s else none

/-- The `AOC_SESSION` entry of a parsed `.env` file. -/
def envSession (lines : List (List Char)) : Option String :=
  (dictGet (load_dotenv lines) "AOC_SESSION".data).map String.mk

def LANGUAGES : List String := ["rust", "go", "python"]

structure Args where
  session : Option String
  year : String
  day_unpadded : String
  day_padded : String
  refresh_instructions : Bool
  instructions : Bool
  language : List String
  base_dir : SegPath

/-- The effectful steps of `main_logic` after credential resolution, in
program order (network fetches, directory creation, scaffold calls). -/
inductive MainStep
  | mkdirStep (p : SegPath)
  | fetchInputStep (url : String)
  | fetchStatementStep (url : String)
  | scaffoldStep (lang : String)

/-- `main_logic` at the trace level: `.error msgs` is `sys.exit(1)` after
printing `msgs`, before any step of the returned kind happens; `.ok
steps` lists the effectful steps in the order the code performs them. -/
def main_logic (a : Args) (envLines : List (List Char)) :
    Except (List String) (List MainStep) :=
  match resolve_session a.session (envSession envLines) with
  | none =>
      .error ["Error: Advent of Code session cookie not found.",
        "Please provide it using the -s/--session argument, or by setting AOC_SESSION in \x27.env\x27."]
  | some _ =>
      let target := target_dir_of a.year a.day_padded a.base_dir
      let dirStep := [MainStep.mkdirStep target]
      if a.refresh_instructions then
        .ok (dirStep ++
          [MainStep.fetchStatementStep (problem_url a.year a.day_unpadded)])
      else
        let langs :=
          if a.language.contains "all" then LANGUAGES
          else a.language.filter (fun l => LANGUAGES.contains l)
        .ok (dirStep ++
          [MainStep.fetchInputStep (input_url a.year a.day_unpadded)] ++
          (if a.instructions then
            [MainStep.fetchStatementStep (problem_url a.year a.day_unpadded)]
           else []) ++
          langs.map MainStep.scaffoldStep)

/-! ## Helper lemmas about the string primitives -/

theorem lstripL_cons_of_neg {c : Char} {t : List Char} (h : pyWS c = false) :
    lstripL (c :: t) = c :: t := by
  simp [lstripL, List.dropWhile_cons, h]

theorem lstripL_length_le (l : List Char) : (lstripL l).length ≤ l.length :=
  (List.dropWhile_sublist pyWS).length_le

theorem pyWS_false_of_lstripL_cons {c : Char} {t : List Char}
    (h : lstripL (c :: t) = c :: t) : pyWS c = false := by
  by_contra hc
  have hc' : pyWS c = true := by
    cases hws : pyWS c
    · exact absurd hws hc
    · rfl
  have h2 : lstripL (c :: t) = lstripL t := by
    simp [lstripL, List.dropWhile_cons, hc']
  have h3 := lstripL_length_le t
  rw [h2] at h
  have : (lstripL t).length = t.length + 1 := by rw [h]; simp
  omega

theorem lstripL_append_self {k r : List Char} (hk : lstripL k = k)
    (hne : k ≠ []) : lstripL (k ++ r) = k ++ r := by
  cases k with
  | nil => exact absurd rfl hne
  | cons c t =>
      have hc := pyWS_false_of_lstripL_cons hk
      simp [lstripL, List.dropWhile_cons, hc]

theorem rstripL_eq_self_of_getLast {l : List Char} {c : Char}
    (hl : l.getLast? = some c) (hc : pyWS c = false) : rstripL l = l := by
  have hrev : l.reverse.head? = some c := by rw [List.head?_reverse]; exact hl
  cases hrevl : l.reverse with
  | nil => rw [hrevl] at hrev; simp at hrev
  | cons d t =>
      rw [hrevl] at hrev
      simp at hrev
      subst hrev
      have : lstripL l.reverse = l.reverse := by
        rw [hrevl]; exact lstripL_cons_of_neg hc
      unfold rstripL
      rw [this, List.reverse_reverse]

theorem stripL_eq_self_parts {l : List Char} (h : stripL l = l) :
    lstripL l = l ∧ rstripL l = l := by
  have h1 : (stripL l).length ≤ (lstripL l).length := by
    unfold stripL rstripL
    calc ((lstripL (lstripL l).reverse).reverse).length
        = (lstripL (lstripL l).reverse).length := by simp
      _ ≤ (lstripL l).reverse.length := lstripL_length_le _
      _ = (lstripL l).length := by simp
  have h2 : (lstripL l).length ≤ l.length := lstripL_length_le l
  have hlen : (stripL l).length = l.length := by rw [h]
  have hleq : (lstripL l).length = l.length := by omega
  have hls : lstripL l = l :=
    (List.dropWhile_sublist pyWS).eq_of_length hleq
  refine ⟨hls, ?_⟩
  have := h
  unfold stripL at this
  rw [hls] at this
  exact this

theorem getLast_not_ws_of_rstripL_self {l : List Char} (h : rstripL l = l)
    (hne : l ≠ []) : ∃ c, l.getLast? = some c ∧ pyWS c = false := by
  have hrev : lstripL l.reverse = l.reverse := by
    unfold rstripL at h
    have := congrArg List.reverse h
    rwa [List.reverse_reverse] at this
  cases hrevl : l.reverse with
  | nil =>
      have : l = [] := by
        have := congrArg List.reverse hrevl
        simpa using this
      exact absurd this hne
  | cons c t =>
      rw [hrevl] at hrev
      refine ⟨c, ?_, pyWS_false_of_lstripL_cons hrev⟩
      rw [← List.head?_reverse, hrevl]
      rfl

theorem stripL_append_eq_self {k m : List Char} (hk : lstripL k = k)
    (hkne : k ≠ []) {c : Char} (hlast : (k ++ m).getLast? = some c)
    (hc : pyWS c = false) : stripL (k ++ m) = k ++ m := by
  unfold stripL
  rw [lstripL_append_self hk hkne]
  exact rstripL_eq_self_of_getLast hlast hc

theorem takeWhile_append_eq {k v : List Char} (hk : '=' ∉ k) :
    (k ++ '=' :: v).takeWhile (fun c => decide (c ≠ '=')) = k := by
  induction k with
  | nil => simp [List.takeWhile_cons]
  | cons c t ih =>
      have hc : c ≠ '=' := fun h => hk (h ▸ List.mem_cons_self c t)
      have ht : '=' ∉ t := fun h => hk (List.mem_cons_of_mem c h)
      simp only [List.cons_append, List.takeWhile_cons, decide_eq_true_eq]
      rw [if_pos hc, ih ht]

theorem dropWhile_append_eq {k v : List Char} (hk : '=' ∉ k) :
    (k ++ '=' :: v).dropWhile (fun c => decide (c ≠ '=')) = '=' :: v := by
  induction k with
  | nil => simp [List.dropWhile_cons]
  | cons c t ih =>
      have hc : c ≠ '=' := fun h => hk (h ▸ List.mem_cons_self c t)
      have ht : '=' ∉ t := fun h => hk (List.mem_cons_of_mem c h)
      simp only [List.cons_append, List.dropWhile_cons, decide_eq_true_eq]
      rw [if_pos hc, ih ht]

theorem contains_append_eq {k v : List Char} :
    (k ++ '=' :: v).contains '=' = true := by
  simp [List.contains, List.elem_iff]

theorem stripQuotes_wrap {q : Char} (hq : q = '\'' ∨ q = '"')
    (v : List Char) : stripQuotes (q :: v ++ [q]) = v := by
  have hlast : (q :: v ++ [q]).getLast? = some q := List.getLast?_concat _
  rcases hq with h | h <;> subst h <;>
    (unfold stripQuotes; rw [hlast]; simp [List.dropLast_concat])

/-- A well-formed key: no surrounding whitespace, no `=` or leading `#`. -/
def goodKey (k : List Char) : Prop :=
  stripL k = k ∧ k ≠ [] ∧ '=' ∉ k ∧ k.head? ≠ some '#'

instance (k : List Char) : Decidable (goodKey k) := by
  unfold goodKey; infer_instance

theorem parse_env_line_plain {k v : List Char} (hk : goodKey k)
    (hv : stripL v = v) (hvq : stripQuotes v = v) :
    parse_env_line (k ++ '=' :: v) = some (k, v) := by
  obtain ⟨hks, hkne, hkeq, hkh⟩ := hk
  obtain ⟨hkl, _⟩ := stripL_eq_self_parts hks
  have hlast : ∃ c, (k ++ '=' :: v).getLast? = some c ∧ pyWS c = false := by
    cases hvnil : v with
    | nil => exact ⟨'=', List.getLast?_concat _, by decide⟩
    | cons c0 t0 =>
        obtain ⟨_, hvr⟩ := stripL_eq_self_parts hv
        obtain ⟨c, hc1, hc2⟩ :=
          getLast_not_ws_of_rstripL_self hvr (by simp [hvnil])
        refine ⟨c, ?_, hc2⟩
        have heq2 : k ++ '=' :: (c0 :: t0) = (k ++ ['=']) ++ (c0 :: t0) := by
          simp
        rw [heq2, List.getLast?_append_of_ne_nil _
          (show (c0 :: t0 : List Char) ≠ [] by simp)]
        rw [← hvnil]
        exact hc1
  obtain ⟨c, hc1, hc2⟩ := hlast
  have hstr : stripL (k ++ '=' :: v) = k ++ '=' :: v :=
    stripL_append_eq_self hkl hkne hc1 hc2
  have hhead : (k ++ '=' :: v).head? = k.head? :=
    List.head?_append_of_ne_nil _ hkne
  unfold parse_env_line
  simp only []
  rw [hstr, takeWhile_append_eq hkeq, dropWhile_append_eq hkeq]
  simp only [List.tail_cons]
  rw [hks, hv, hvq]
  simp [hhead, contains_append_eq, hkh, hkne]

theorem parse_env_line_quoted {k v : List Char} {q : Char}
    (hq : q = '\'' ∨ q = '"') (hk : goodKey k) :
    parse_env_line (k ++ '=' :: (q :: v ++ [q])) = some (k, v) := by
  obtain ⟨hks, hkne, hkeq, hkh⟩ := hk
  obtain ⟨hkl, _⟩ := stripL_eq_self_parts hks
  have hqw : pyWS q = false := by rcases hq with h | h <;> subst h <;> decide
  have hlast : (k ++ '=' :: (q :: v ++ [q])).getLast? = some q := by
    rw [List.getLast?_append_of_ne_nil k
      (show ('=' :: (q :: v ++ [q]) : List Char) ≠ [] by simp)]
    exact List.getLast?_concat ('=' :: q :: v)
  have hstr : stripL (k ++ '=' :: (q :: v ++ [q])) =
      k ++ '=' :: (q :: v ++ [q]) :=
    stripL_append_eq_self hkl hkne hlast hqw
  have hhead : (k ++ '=' :: (q :: v ++ [q])).head? = k.head? :=
    List.head?_append_of_ne_nil _ hkne
  have hmid : stripL (q :: v ++ [q]) = q :: v ++ [q] := by
    rw [List.cons_append]
    unfold stripL
    rw [lstripL_cons_of_neg hqw]
    refine rstripL_eq_self_of_getLast ?_ hqw
    rw [← List.cons_append]
    exact List.getLast?_concat _
  unfold parse_env_line
  simp only []
  rw [hstr, takeWhile_append_eq hkeq, dropWhile_append_eq hkeq]
  simp only [List.tail_cons]
  rw [hks, hmid, stripQuotes_wrap hq]
  simp [hhead, contains_append_eq, hkh, hkne]

theorem dictGet_dictInsert (m : List (List Char × List Char))
    (k v : List Char) : dictGet (dictInsert m k v) k = some v := by
  induction m with
  | nil => simp [dictInsert, dictGet]
  | cons p rest ih =>
      by_cases h : p.1 = k
      · simp [dictInsert, dictGet, h]
      · simp only [dictInsert, dictGet]
        rw [if_neg h, dictGet, if_neg h]
        exact ih

theorem parse_env_line_hash {line : List Char}
    (h : (stripL line).head? = some '#') : parse_env_line line = none := by
  unfold parse_env_line
  simp [h]

theorem load_dotenv_append (xs ys : List (List Char)) :
    load_dotenv (xs ++ ys) = ys.foldl
      (fun m line =>
        match parse_env_line line with
        | none => m
        | some (k, v) => dictInsert m k v)
      (load_dotenv xs) := by
  unfold load_dotenv
  exact List.foldl_append _ _ _ _

/-! ## Claim theorems -/

/-- C3: parsing a line `KEY="value"` (or `KEY='value'`) and a line
`KEY=value` stores the identical value, with the surrounding quotes
stripped; a line whose stripped form starts with `#` is ignored by
`load_dotenv`; and when a key occurs on several lines, the stored value
is that of the last occurrence. -/
theorem c3_env_parsing_deterministic :
    (∀ (k v : List Char) (q : Char), q = '\'' ∨ q = '"' → goodKey k →
       stripL v = v → stripQuotes v = v →
       parse_env_line (k ++ '=' :: (q :: v ++ [q])) = some (k, v) ∧
       parse_env_line (k ++ '=' :: v) = some (k, v)) ∧
    (∀ (pre post : List (List Char)) (line : List Char),
       (stripL line).head? = some '#' →
       load_dotenv (pre ++ line :: post) = load_dotenv (pre ++ post)) ∧
    (∀ (pre : List (List Char)) (line : List Char) (k v : List Char),
       parse_env_line line = some (k, v) →
       dictGet (load_dotenv (pre ++ [line])) k = some v) := by
  refine ⟨?_, ?_, ?_⟩
  · intro k v q hq hk hv hvq
    exact ⟨parse_env_line_quoted hq hk, parse_env_line_plain hk hv hvq⟩
  · intro pre post line h
    rw [load_dotenv_append pre (line :: post), load_dotenv_append pre post]
    simp only [List.foldl_cons, parse_env_line_hash h]
  · intro pre line k v h
    rw [load_dotenv_append pre [line]]
    simp only [List.foldl_cons, List.foldl_nil, h]
    exact dictGet_dictInsert _ _ _

/-- Witness for C3 at concrete inputs: `AOC_SESSION="abc"` versus
`AOC_SESSION=abc`, a `# note` comment line, and a duplicated key `A`. -/
theorem c3_env_parsing_deterministic_witness :
    (goodKey "AOC_SESSION".data ∧ stripL "abc".data = "abc".data ∧
     stripQuotes "abc".data = "abc".data) ∧
    parse_env_line ("AOC_SESSION".data ++ '=' :: ('"' :: "abc".data ++ ['"'])) =
      some ("AOC_SESSION".data, "abc".data) ∧
    parse_env_line ("AOC_SESSION".data ++ '=' :: "abc".data) =
      some ("AOC_SESSION".data, "abc".data) ∧
    load_dotenv ([] ++ "# note".data :: ["A=1".data]) =
      load_dotenv ([] ++ ["A=1".data]) ∧
    dictGet (load_dotenv (["A=1".data] ++ ["A=2".data])) "A".data =
      some "2".data := by
  refine ⟨⟨by decide, by decide, by decide⟩, ?_, ?_, ?_, ?_⟩
  · exact (c3_env_parsing_deterministic.1 "AOC_SESSION".data "abc".data '"'
      (Or.inr rfl) (by decide) (by decide) (by decide)).1
  · exact (c3_env_parsing_deterministic.1 "AOC_SESSION".data "abc".data '"'
      (Or.inr rfl) (by decide) (by decide) (by decide)).2
  · exact c3_env_parsing_deterministic.2.1 [] ["A=1".data] "# note".data
      (by decide)
  · exact c3_env_parsing_deterministic.2.2 ["A=1".data] "A=2".data
      "A".data "2".data (by decide)

theorem mem_mkdirParents (dirs : List SegPath) (p q : SegPath)
    (h : q ∈ initialSegs p) : q ∈ mkdirParents dirs p := by
  by_cases hq : q ∈ dirs
  · exact List.mem_append_left _ hq
  · refine List.mem_append_right _ ?_
    refine List.mem_filter.mpr ⟨h, ?_⟩
    simp [List.contains, List.elem_iff, hq]

theorem self_mem_initialSegs (p : SegPath) : p ∈ initialSegs p := by
  unfold initialSegs
  refine List.mem_map.mpr ⟨p.length, ?_, by simp⟩
  simp

/-- C4: the target path omits the year segment exactly when the base path
already contains it, and `mkdir(parents=True, exist_ok=True)` on the
target is idempotent — the second call changes nothing and the directory
exists after the first. -/
theorem c4_target_dir_and_idempotent_mkdir :
    (∀ (year day : String) (base : SegPath), year ∈ base →
       target_dir_of year day base = base ++ [day]) ∧
    (∀ (year day : String) (base : SegPath), year ∉ base →
       target_dir_of year day base = base ++ [year, day]) ∧
    (∀ (dirs : List SegPath) (p : SegPath),
       mkdirParents (mkdirParents dirs p) p = mkdirParents dirs p ∧
       p ∈ mkdirParents dirs p) := by
  refine ⟨?_, ?_, ?_⟩
  · intro year day base h
    simp [target_dir_of, h]
  · intro year day base h
    simp [target_dir_of, h]
  · intro dirs p
    refine ⟨?_, mem_mkdirParents dirs p p (self_mem_initialSegs p)⟩
    rw [show mkdirParents (mkdirParents dirs p) p = mkdirParents dirs p ++
      (initialSegs p).filter (fun q => !(mkdirParents dirs p).contains q)
      from rfl]
    have hnil : (initialSegs p).filter
        (fun q => !(mkdirParents dirs p).contains q) = [] := by
      rw [List.filter_eq_nil_iff]
      intro a ha
      simp [List.contains, List.elem_iff, mem_mkdirParents dirs p a ha]
    rw [hnil, List.append_nil]

/-- Witness for C4: a base directory that contains the year `2023`, one
that does not, and idempotent creation of `["home", "07"]`. -/
theorem c4_target_dir_and_idempotent_mkdir_witness :
    ("2023" ∈ (["home", "2023"] : SegPath) ∧
     target_dir_of "2023" "07" ["home", "2023"] = ["home", "2023", "07"]) ∧
    ("2023" ∉ (["home"] : SegPath) ∧
     target_dir_of "2023" "07" ["home"] = ["home", "2023", "07"]) ∧
    (mkdirParents (mkdirParents [] ["home", "07"]) ["home", "07"] =
       mkdirParents [] ["home", "07"] ∧
     ["home", "07"] ∈ mkdirParents [] ["home", "07"]) := by
  refine ⟨⟨by decide, ?_⟩, ⟨by decide, ?_⟩, ?_⟩
  · exact c4_target_dir_and_idempotent_mkdir.1 "2023" "07" ["home", "2023"]
      (by decide)
  · exact c4_target_dir_and_idempotent_mkdir.2.1 "2023" "07" ["home"]
      (by decide)
  · exact c4_target_dir_and_idempotent_mkdir.2.2 [] ["home", "07"]

/-- C2: an explicit non-empty command-line credential wins over any
config-file value; otherwise a non-empty config-file value is used; and
when resolution yields nothing, `main_logic` stops with the descriptive
error before any directory, network or scaffold step. -/
theorem c2_session_resolution :
    (∀ (s : String) (env : Option String), s ≠ "" →
       resolve_session (some s) env = some s) ∧
    (∀ (e : String), e ≠ "" →
       resolve_session none (some e) = some e ∧
       resolve_session (some "") (some e) = some e) ∧
    resolve_session none none = none ∧
    (∀ (a : Args) (envLines : List (List Char)),
       resolve_session a.session (envSession envLines) = none →
       main_logic a envLines = .error
         ["Error: Advent of Code session cookie not found.",
          "Please provide it using the -s/--session argument, or by setting AOC_SESSION in \x27.env\x27."]) := by
  refine ⟨?_, ?_, rfl, ?_⟩
  · intro s env h
    simp [resolve_session, truthyOpt, h]
  · intro e h
    constructor <;> simp [resolve_session, truthyOpt, h]
  · intro a envLines h
    unfold main_logic
    rw [h]

/-- Witness for C2: `-s tok` beats a file value, the file value is used
when no flag is given, and with neither source `main_logic` fails with
the descriptive error. -/
theorem c2_session_resolution_witness :
    ("tok" ≠ "" ∧
     resolve_session (some "tok") (some "filetok") = some "tok") ∧
    ("filetok" ≠ "" ∧
     resolve_session none (some "filetok") = some "filetok") ∧
    (resolve_session (Args.session ⟨none, "2023", "7", "07", false, false,
        ["all"], []⟩) (envSession []) = none ∧
     main_logic ⟨none, "2023", "7", "07", false, false, ["all"], []⟩ [] =
       .error
         ["Error: Advent of Code session cookie not found.",
          "Please provide it using the -s/--session argument, or by setting AOC_SESSION in \x27.env\x27."]) := by
  refine ⟨⟨by decide, ?_⟩, ⟨by decide, ?_⟩, by decide, ?_⟩
  · exact c2_session_resolution.1 "tok" (some "filetok") (by decide)
  · exact (c2_session_resolution.2.1 "filetok" (by decide)).1
  · exact c2_session_resolution.2.2.2
      ⟨none, "2023", "7", "07", false, false, ["all"], []⟩ [] (by decide)

/-- C9: the year argument is accepted exactly for integers between 2015
and one past the current year, and rejected for non-integers; the day
argument is accepted exactly for integers from 1 to 25.  Both checks run
inside `argparse`, before `main_logic` does anything. -/
theorem c9_cli_validation :
    (∀ (cy y : Int), year_type cy (some y) = .ok y ↔
       2015 ≤ y ∧ y ≤ cy + 1) ∧
    (∀ cy : Int, year_type cy none =
       .error "Invalid year format. Must be an integer.") ∧
    (∀ d : Int, day_accepted (some d) = true ↔ 1 ≤ d ∧ d ≤ 25) ∧
    day_accepted none = false := by
  refine ⟨?_, fun cy => rfl, ?_, rfl⟩
  · intro cy y
    constructor
    · intro h
      simp only [year_type] at h
      by_cases h1 : y < 2015
      · rw [if_pos h1] at h
        exact absurd h (by simp)
      · by_cases h2 : y > cy + 1
        · rw [if_neg h1, if_pos h2] at h
          exact absurd h (by simp)
        · omega
    · intro ⟨h1, h2⟩
      simp only [year_type]
      rw [if_neg (by omega), if_neg (by omega)]
  · intro d
    unfold day_accepted
    simp

/-- C5: every HTTP error status on the input fetch is fatal, the 401/403
diagnostic names the session cookie's validity, and it differs from the
diagnostic of a 400 response whose body holds the not-yet-unlocked
substring. -/
theorem c5_input_fetch_http_errors :
    (∀ (year day body : String) (writeOk : Bool) (s : Nat),
       400 ≤ s → s < 600 →
       ∃ msgs, fetch_input year day (.resp ⟨s, body⟩) writeOk =
         .error msgs) ∧
    (∀ (year day body : String) (writeOk : Bool),
       fetch_input year day (.resp ⟨401, body⟩) writeOk =
         .error ["Error: HTTP " ++ toString (401 : Nat) ++
           " fetching puzzle input from " ++ input_url year day ++ ".",
           credDetail] ∧
       fetch_input year day (.resp ⟨403, body⟩) writeOk =
         .error ["Error: HTTP " ++ toString (403 : Nat) ++
           " fetching puzzle input from " ++ input_url year day ++ ".",
           credDetail]) ∧
    (∀ (year day body : String) (writeOk : Bool),
       strContains body unlockSubstr = true →
       fetch_input year day (.resp ⟨400, body⟩) writeOk =
         .error ["Error: HTTP " ++ toString (400 : Nat) ++
           " fetching puzzle input from " ++ input_url year day ++ ".",
           unlockDetail]) ∧
    credDetail ≠ unlockDetail ∧
    strContains credDetail "cookie is valid" = true := by
  refine ⟨?_, ?_, ?_, by decide, by decide⟩
  · intro year day body writeOk s h4 h6
    simp only [fetch_input]
    rw [if_pos (⟨h4, h6⟩ : 400 ≤ s ∧ s < 600)]
    split
    · exact ⟨_, rfl⟩
    · split
      · exact ⟨_, rfl⟩
      · exact ⟨_, rfl⟩
  · intro year day body writeOk
    constructor <;> simp [fetch_input]
  · intro year day body writeOk h
    simp [fetch_input, h]

/-- Witness for C5: a 404 is fatal; the 401 and the unlocked-400 errors
at concrete year/day carry their distinct detail lines. -/
theorem c5_input_fetch_http_errors_witness :
    ((400 : Nat) ≤ 404 ∧ (404 : Nat) < 600 ∧
     ∃ msgs, fetch_input "2023" "7" (.resp ⟨404, "no"⟩) true =
       .error msgs) ∧
    fetch_input "2023" "7" (.resp ⟨401, ""⟩) true =
      .error ["Error: HTTP " ++ toString (401 : Nat) ++
        " fetching puzzle input from " ++ input_url "2023" "7" ++ ".",
        credDetail] ∧
    (strContains unlockSubstr unlockSubstr = true ∧
     fetch_input "2023" "7" (.resp ⟨400, unlockSubstr⟩) true =
       .error ["Error: HTTP " ++ toString (400 : Nat) ++
         " fetching puzzle input from " ++ input_url "2023" "7" ++ ".",
         unlockDetail]) := by
  refine ⟨⟨by decide, by decide, ?_⟩, ?_, ⟨by decide, ?_⟩⟩
  · exact c5_input_fetch_http_errors.1 "2023" "7" "no" true 404
      (by decide) (by decide)
  · exact (c5_input_fetch_http_errors.2.1 "2023" "7" "" true).1
  · exact c5_input_fetch_http_errors.2.2.1 "2023" "7" unlockSubstr true
      (by decide)

/-- C1 counterexample: when fetching/parsing raises an unexpected
exception (the function's final `except Exception` handler, e.g. a parser
error), `fetch_and_save_instructions` returns the status
`"FAILED_UNEXPECTED"`, which is not one of the six statuses its docstring
and the spec enumerate. -/
theorem c1_six_statuses_counterexample :
    (fetch_and_save_instructions "2023" "7" (some "prior") true
      (.exn "parser blew up")).1 = "FAILED_UNEXPECTED" ∧
    "FAILED_UNEXPECTED" ∉ documentedStatuses := by
  exact ⟨rfl, by decide⟩

/-- C1 (amended): for every fetch of the problem statement,
`fetch_and_save_instructions` returns exactly one of SEVEN statuses — the
six documented ones plus `"FAILED_UNEXPECTED"` for any other exception
while fetching/parsing — and never terminates the process on failure: it
is embedded as a total function returning the status to the caller, with
no exit outcome. -/
theorem c1_seven_statuses_no_exit (year day : String) (old : Option String)
    (writeOk : Bool) (out : PageOutcome) :
    (fetch_and_save_instructions year day old writeOk out).1 ∈
      documentedStatuses ++ ["FAILED_UNEXPECTED"] := by
  cases out with
  | httpError s b => simp [fetch_and_save_instructions, documentedStatuses]
  | netError m => simp [fetch_and_save_instructions, documentedStatuses]
  | exn m => simp [fetch_and_save_instructions, documentedStatuses]
  | ok articles =>
      by_cases h : articles = []
      · simp [fetch_and_save_instructions, h, documentedStatuses]
      · by_cases hw : writeOk
        · cases old with
          | none =>
              simp [fetch_and_save_instructions, h, hw, documentedStatuses]
          | some o =>
              by_cases he : o = build_problem_text year day articles
              · simp [fetch_and_save_instructions, h, hw, he,
                  documentedStatuses]
              · simp [fetch_and_save_instructions, h, hw, he,
                  documentedStatuses]
        · simp [fetch_and_save_instructions, h, hw, documentedStatuses]

/-- C6: with a successful fetch, at least one matching article and a
successful write, the reported status is exactly determined by comparing
the newly built text with the prior file content: no prior file gives
`"CREATED"`, an identical prior gives `"UNCHANGED"` (and the stored bytes
stay that same text), and a differing prior gives `"UPDATED"`. -/
theorem c6_statuses_determined_by_comparison (year day : String)
    (articles : List String) (h : articles ≠ []) :
    fetch_and_save_instructions year day none true (.ok articles) =
      ("CREATED", some (build_problem_text year day articles)) ∧
    fetch_and_save_instructions year day
        (some (build_problem_text year day articles)) true (.ok articles) =
      ("UNCHANGED", some (build_problem_text year day articles)) ∧
    (∀ old : String, old ≠ build_problem_text year day articles →
       fetch_and_save_instructions year day (some old) true (.ok articles) =
         ("UPDATED", some (build_problem_text year day articles))) := by
  refine ⟨?_, ?_, ?_⟩
  · simp [fetch_and_save_instructions, h]
  · simp [fetch_and_save_instructions, h]
  · intro old hne
    simp [fetch_and_save_instructions, h, hne]

/-- Witness for C6 at a concrete article list. -/
theorem c6_statuses_determined_by_comparison_witness :
    (["sample text"] ≠ ([] : List String)) ∧
    fetch_and_save_instructions "2023" "7" none true (.ok ["sample text"]) =
      ("CREATED", some (build_problem_text "2023" "7" ["sample text"])) ∧
    fetch_and_save_instructions "2023" "7"
        (some (build_problem_text "2023" "7" ["sample text"])) true
        (.ok ["sample text"]) =
      ("UNCHANGED", some (build_problem_text "2023" "7" ["sample text"])) ∧
    ("stale" ≠ build_problem_text "2023" "7" ["sample text"] ∧
     fetch_and_save_instructions "2023" "7" (some "stale") true
        (.ok ["sample text"]) =
      ("UPDATED", some (build_problem_text "2023" "7" ["sample text"]))) := by
  have h := c6_statuses_determined_by_comparison "2023" "7" ["sample text"]
    (by decide)
  exact ⟨by decide, h.1, h.2.1, by decide, h.2.2 "stale" (by decide)⟩

/-- C10: on a fetch failure (HTTP or network), on zero selector matches,
and in fact on every outcome that is not a successful fetch with at least
one article and a successful write, the stored `problem_statement.txt`
content is left unchanged; the file changes only to the newly built text. -/
theorem c10_prior_file_preserved_on_failure (year day : String)
    (old : Option String) (writeOk : Bool) :
    (∀ (s : Nat) (b : String),
       fetch_and_save_instructions year day old writeOk (.httpError s b) =
         ("FAILED_FETCH", old)) ∧
    (∀ m, fetch_and_save_instructions year day old writeOk (.netError m) =
       ("FAILED_FETCH", old)) ∧
    fetch_and_save_instructions year day old writeOk (.ok []) =
      ("NOT_FOUND", old) ∧
    (∀ articles : List String,
       (fetch_and_save_instructions year day old writeOk
           (.ok articles)).2 ≠ old →
       articles ≠ [] ∧ writeOk = true ∧
       (fetch_and_save_instructions year day old writeOk
           (.ok articles)).2 =
         some (build_problem_text year day articles)) := by
  refine ⟨fun s b => rfl, fun m => rfl, by simp [fetch_and_save_instructions],
    ?_⟩
  intro articles hne
  by_cases h : articles = []
  · exact absurd (by simp [fetch_and_save_instructions, h]) hne
  · by_cases hw : writeOk
    · refine ⟨h, hw, ?_⟩
      cases old with
      | none => simp [fetch_and_save_instructions, h, hw]
      | some o =>
          by_cases he : o = build_problem_text year day articles
          · simp [fetch_and_save_instructions, h, hw, he]
          · simp [fetch_and_save_instructions, h, hw, he]
    · exact absurd (by simp [fetch_and_save_instructions, h, hw]) hne

/-- Witness for C10: a 500 error, a network error and an empty selector
match leave a prior content in place; a successful fetch writes the text. -/
theorem c10_prior_file_preserved_on_failure_witness :
    fetch_and_save_instructions "2023" "7" (some "prior") true
      (.httpError 500 "oops") = ("FAILED_FETCH", some "prior") ∧
    fetch_and_save_instructions "2023" "7" (some "prior") true
      (.netError "timeout") = ("FAILED_FETCH", some "prior") ∧
    fetch_and_save_instructions "2023" "7" (some "prior") true (.ok []) =
      ("NOT_FOUND", some "prior") ∧
    ((fetch_and_save_instructions "2023" "7" none true (.ok ["x"])).2 ≠
       none ∧
     (["x"] ≠ ([] : List String) ∧ (true : Bool) = true ∧
      (fetch_and_save_instructions "2023" "7" none true (.ok ["x"])).2 =
        some (build_problem_text "2023" "7" ["x"]))) := by
  have h := c10_prior_file_preserved_on_failure "2023" "7" (some "prior") true
  have h2 := c10_prior_file_preserved_on_failure "2023" "7" none true
  exact ⟨h.1 500 "oops", h.2.1 "timeout", h.2.2.1, by decide,
    h2.2.2.2 ["x"] (by decide)⟩

/-- C7: each scaffold generator (rust, go, python), when the ecosystem's
subdirectory already exists in the destination, invokes no toolchain
subprocess, creates no directory, performs no file write, and reports a
skip. -/
theorem c7_scaffold_skip_when_existing (dst : SegPath) (year day : String)
    (fs : FS) (cargo : ToolOutcome) (toml : Option String)
    (goTool : ToolOutcome) (pyExe : String) (uv stdV : ToolOutcome) :
    (pathExists fs (dst ++ ["rust"]) = true →
       scaffold_rust_project dst year day fs cargo toml =
         { cmds := [], mkdirs := [], writes := []
           msgs := ["Rust project already exists at " ++
             renderPath (dst ++ ["rust"]) ++ ", skipping."]
           skipped := true }) ∧
    (pathExists fs (dst ++ ["go"]) = true →
       scaffold_go_project dst year day fs goTool =
         { cmds := [], mkdirs := [], writes := []
           msgs := ["Go project already exists at " ++
             renderPath (dst ++ ["go"]) ++ ", skipping."]
           skipped := true }) ∧
    (pathExists fs (dst ++ ["python"]) = true →
       scaffold_python_project dst pyExe fs uv stdV =
         { cmds := [], mkdirs := [], writes := []
           msgs := ["Python project already exists at " ++
             renderPath (dst ++ ["python"]) ++ ", skipping."]
           skipped := true }) := by
  refine ⟨?_, ?_, ?_⟩
  · intro h
    simp [scaffold_rust_project, h]
  · intro h
    simp [scaffold_go_project, h]
  · intro h
    simp [scaffold_python_project, h]

/-- Witness for C7: a destination whose `rust`, `go` and `python`
subdirectories all exist. -/
theorem c7_scaffold_skip_when_existing_witness :
    (pathExists ⟨[["d", "rust"], ["d", "go"], ["d", "python"]], []⟩
       (["d"] ++ ["rust"]) = true ∧
     scaffold_rust_project ["d"] "2023" "07"
         ⟨[["d", "rust"], ["d", "go"], ["d", "python"]], []⟩ .ok none =
       { cmds := [], mkdirs := [], writes := []
         msgs := ["Rust project already exists at " ++
           renderPath (["d"] ++ ["rust"]) ++ ", skipping."]
         skipped := true }) ∧
    (scaffold_go_project ["d"] "2023" "07"
         ⟨[["d", "rust"], ["d", "go"], ["d", "python"]], []⟩ .ok =
       { cmds := [], mkdirs := [], writes := []
         msgs := ["Go project already exists at " ++
           renderPath (["d"] ++ ["go"]) ++ ", skipping."]
         skipped := true }) ∧
    (scaffold_python_project ["d"] "python3"
         ⟨[["d", "rust"], ["d", "go"], ["d", "python"]], []⟩ .ok .ok =
       { cmds := [], mkdirs := [], writes := []
         msgs := ["Python project already exists at " ++
           renderPath (["d"] ++ ["python"]) ++ ", skipping."]
         skipped := true }) := by
  have h := c7_scaffold_skip_when_existing ["d"] "2023" "07"
    ⟨[["d", "rust"], ["d", "go"], ["d", "python"]], []⟩ .ok none .ok
    "python3" .ok .ok
  exact ⟨⟨by decide, h.1 (by decide)⟩, h.2.1 (by decide), h.2.2 (by decide)⟩

/-- C8 counterexample: the fallback after a non-zero `uv` exit is not
silent — the scaffolder prints the fallback notice of main.py lines
423-427 to stderr before trying the standard `venv` module. -/
theorem c8_silent_fallback_counterexample :
    "Failed to create venv with `uv` (exited with 1). Falling back to standard `venv` module." ∈
      (scaffold_python_project ["d"] "python3" ⟨[], []⟩
        (.exitNonZero 1) .ok).msgs := by
  decide

/-- C8 (amended): when the `python` subdirectory is absent, the
scaffolder always tries `uv venv` first; with a working `uv` no second
tool runs; when `uv` is unavailable or exits non-zero it falls back to
`sys.executable -m venv .venv` — silently when `uv` is not found, but
with a non-fatal stderr fallback notice when `uv` exits non-zero — and
the placeholder `main.py` is written in every case. -/
theorem c8_python_uv_fallback_amended (dst : SegPath) (pyExe : String)
    (fs : FS) (stdV : ToolOutcome)
    (h : pathExists fs (dst ++ ["python"]) = false) :
    ((scaffold_python_project dst pyExe fs .ok stdV).cmds =
       [["uv", "venv"]]) ∧
    (∀ uv : ToolOutcome, uv ≠ .ok →
       (scaffold_python_project dst pyExe fs uv stdV).cmds =
         [["uv", "venv"], [pyExe, "-m", "venv", ".venv"]]) ∧
    (∀ uv : ToolOutcome,
       (scaffold_python_project dst pyExe fs uv stdV).cmds.head? =
         some ["uv", "venv"]) ∧
    (∀ uv : ToolOutcome,
       (scaffold_python_project dst pyExe fs uv stdV).writes =
         [(dst ++ ["python", "main.py"], main_py_content)]) ∧
    ((scaffold_python_project dst pyExe fs .notFound .ok).msgs =
       ["Scaffolding Python project in " ++ renderPath (dst ++ ["python"]) ++
          "...",
        "Python venv created successfully with standard `venv` module.",
        "Python project scaffolded."]) ∧
    (∀ code : Int,
       ("Failed to create venv with `uv` (exited with " ++ toString code ++
          "). Falling back to standard `venv` module.") ∈
         (scaffold_python_project dst pyExe fs (.exitNonZero code)
           stdV).msgs) := by
  refine ⟨?_, ?_, ?_, ?_, ?_, ?_⟩
  · cases stdV <;> simp [scaffold_python_project, h]
  · intro uv huv
    cases uv with
    | ok => exact absurd rfl huv
    | exitNonZero code => cases stdV <;> simp [scaffold_python_project, h]
    | notFound => cases stdV <;> simp [scaffold_python_project, h]
  · intro uv
    cases uv <;> cases stdV <;> simp [scaffold_python_project, h]
  · intro uv
    cases uv <;> cases stdV <;> simp [scaffold_python_project, h]
  · simp [scaffold_python_project, h]
  · intro code
    cases stdV <;> simp [scaffold_python_project, h]

/-- Witness for C8 (amended) on an empty filesystem. -/
theorem c8_python_uv_fallback_amended_witness :
    pathExists ⟨[], []⟩ ((["d"] : SegPath) ++ ["python"]) = false ∧
    (scaffold_python_project ["d"] "python3" ⟨[], []⟩ .ok .ok).cmds =
      [["uv", "venv"]] ∧
    ((ToolOutcome.notFound ≠ ToolOutcome.ok) ∧
     (scaffold_python_project ["d"] "python3" ⟨[], []⟩ .notFound .ok).cmds =
       [["uv", "venv"], ["python3", "-m", "venv", ".venv"]]) ∧
    (scaffold_python_project ["d"] "python3" ⟨[], []⟩ .notFound .ok).writes =
      [(["d"] ++ ["python", "main.py"], main_py_content)] ∧
    ("Failed to create venv with `uv` (exited with " ++ toString (2 : Int) ++
       "). Falling back to standard `venv` module.") ∈
      (scaffold_python_project ["d"] "python3" ⟨[], []⟩
        (.exitNonZero 2) .ok).msgs := by
  have h := c8_python_uv_fallback_amended ["d"] "python3" ⟨[], []⟩ .ok
    (by decide)
  exact ⟨by decide, h.1, ⟨by decide, h.2.1 .notFound (by decide)⟩,
    h.2.2.2.1 .notFound, h.2.2.2.2.2 2⟩

end AocInit
